import Mathlib

/-!
Verification of the `timberio/http_test_server` ingestion stub server
(`server.go`), as a shallow embedding in Lean 4.

Go `int64` counters are modelled as `Int` with explicit two's-complement
wrapping (`wrap64`).  Request bodies are modelled as Lean `String`s (valid
UTF-8 byte sequences); the raw byte length of a body is `String.utf8ByteSize`,
which agrees with Go's `len(bodyBytes)`.  `strings.Split(body, "\n")` is
modelled by `goSplit`, a structurally recursive split on a single character
separator with the same semantics (an empty input yields `[""]`, and the
result list is never empty).

Handlers become pure state-passing functions `Server → Request → Server × Nat`
where the `Nat` is the HTTP status code written to the response.  The
statement order of `Listen`'s startup path and of its shutdown goroutine is
modelled by explicit event lists (`listenSteps`, `shutdownSteps`).
-/

namespace HttpTestServer

/-- Two's-complement range bound for Go `int64`: smallest representable value. -/
def int64Min : Int := -(2 ^ 63)

/-- Two's-complement range bound for Go `int64`: largest representable value. -/
def int64Max : Int := 2 ^ 63 - 1

/-- Go `int64` addition/assignment wraps modulo `2^64` into
`[-2^63, 2^63)`; `wrap64` is that normalisation. -/
def wrap64 (x : Int) : Int := (x + 2 ^ 63) % 2 ^ 64 - 2 ^ 63

/-- Go `strings.Split` on a single-character separator, over the character
list of the body: `splitChars sep l` is the list of maximal `sep`-free
chunks of `l`.  `splitChars sep [] = [[]]`, matching
`strings.Split("", sep) = [""]`. -/
def splitChars (sep : Char) : List Char → List (List Char)
  | [] => [[]]
  | c :: cs =>
    if c = sep then [] :: splitChars sep cs
    else
      match splitChars sep cs with
      | [] => [[c]]
      | l :: ls => (c :: l) :: ls

/-- Go `strings.Split(s, sep)` for a one-character separator `sep`. -/
def goSplit (sep : Char) (s : String) : List String :=
  (splitChars sep s.data).map List.asString

/-- The `Server` struct of `server.go` (exported, JSON-serialised fields plus
the bind address; the `file`, `logger` and `http.Server` handles carry no
counter state and are omitted). -/
structure Server where
  address : String
  ByteTotal : Int
  FirstMessage : String
  LastMessage : String
  MessageCount : Int
  RequestCount : Int

/-- An inbound HTTP request as the `Index` handler sees it: the
`Content-Type` header and the result of `ioutil.ReadAll(r.Body)` —
`none` models a body read error, `some body` a fully read body. -/
structure Request where
  contentType : String
  body : Option String

/-- The `switch contentType` block of `Index` (server.go lines 129–140):
only the four allow-listed content types are split on newlines; every
other content type leaves `messages` as the empty slice. -/
def candidateMessages (contentType body : String) : List String :=
  if contentType = "application/json" then goSplit '\n' body
  else if contentType = "application/ndjson" then goSplit '\n' body
  else if contentType = "application/x-ndjson" then goSplit '\n' body
  else if contentType = "text/plain" then goSplit '\n' body
  else []

/-- The content types that the `switch` in `Index` recognises. -/
def allowList : List String :=
  ["application/json", "application/ndjson", "application/x-ndjson", "text/plain"]

/-- The `Index` ingestion handler (server.go lines 110–163) as a state
transformer: returns the updated server state and the HTTP status code
(400 when the body read fails, 204 otherwise).  The trailing
`fmt.Fprintln(w, "")` writes only to the response stream and is not
modelled. -/
def Index (s : Server) (r : Request) : Server × Nat :=
  let s1 : Server := { s with RequestCount := wrap64 (s.RequestCount + 1) }
  match r.body with
  | none => (s1, 400)
  | some body =>
    let byteLen : Nat := body.utf8ByteSize
    let messages : List String := candidateMessages r.contentType body
    let messageCount : Nat := messages.length
    if messageCount > 0 then
      let s2 : Server := { s1 with
        ByteTotal := wrap64 (s1.ByteTotal + (byteLen : Int)),
        MessageCount := wrap64 (s1.MessageCount + (messageCount : Int)) }
      let firstMessage : String := messages.headD ("")
      let lastMessage : String := messages.getLastD ("")
      let s3 : Server :=
        if s2.FirstMessage = "" ∧ firstMessage ≠ "" then
          { s2 with FirstMessage := firstMessage }
        else s2
      let s4 : Server :=
        if lastMessage ≠ "" then { s3 with LastMessage := lastMessage } else s3
      (s4, 204)
    else (s1, 204)

/-- The `Health` handler (server.go lines 165–173): reads the atomic
`healthy` flag and writes 204 when it is 1 (ready), 503 otherwise.  The
handler closes over the server but never reads or writes any of its
fields; the state is threaded through unchanged to make that explicit. -/
def Health (s : Server) (healthy : Int) : Server × Nat :=
  if healthy = 1 then (s, 204) else (s, 503)

/-- `NewServer` (server.go lines 175–209): all counters start at zero and
both message strings start as Go's zero value `""`. -/
def NewServer (address : String) : Server :=
  { address := address
    ByteTotal := 0
    FirstMessage := ""
    LastMessage := ""
    MessageCount := 0
    RequestCount := 0 }

/-- Initial value of the package-level `healthy int32` (Go zero value):
not-ready. -/
def healthyInit : Int := 0

/-- Every value ever stored to the `healthy` flag by the program: the sole
store instruction is `atomic.StoreInt32(&healthy, 1)` in `Listen`
(server.go line 90). -/
def healthyStores : List Int := [1]

/-- The JSON summary object produced by `WriteSummary` via
`json.Marshal(s)` (server.go lines 96–108): the five exported fields with
their `json` struct tags as field names. -/
structure Summary where
  byte_total : Int
  first_message : String
  last_message : String
  message_count : Int
  request_count : Int

/-- `WriteSummary` (server.go lines 96–108) serialises the current
counters; this is the object written to the summary file. -/
def WriteSummary (s : Server) : Summary :=
  { byte_total := s.ByteTotal
    first_message := s.FirstMessage
    last_message := s.LastMessage
    message_count := s.MessageCount
    request_count := s.RequestCount }

/-- The statements of the shutdown goroutine in `Listen` (server.go lines
56–70), in program order. -/
inductive ShutdownStep where
  | logSignal
  | writeSummary
  | disableKeepAlives
  | shutdownListener
  | logStopped
  | exitProcess
deriving DecidableEq, BEq

/-- Program order of the shutdown goroutine: log the signal, write the
summary, disable keep-alives, tell the listener to stop via
`server.Shutdown`, log, exit. -/
def shutdownSteps : List ShutdownStep :=
  [ShutdownStep.logSignal, ShutdownStep.writeSummary,
   ShutdownStep.disableKeepAlives, ShutdownStep.shutdownListener,
   ShutdownStep.logStopped, ShutdownStep.exitProcess]

/-- The statements of `Listen`'s startup path (server.go lines 50–94), in
program order: spawn the shutdown goroutine, spawn the ticker goroutine,
log readiness, store 1 into `healthy`, then call
`ListenAndServe` (which binds the listener and begins serving). -/
inductive ListenStep where
  | spawnShutdownWatcher
  | spawnTicker
  | logReady
  | storeHealthyReady
  | listenAndServe
deriving DecidableEq, BEq

/-- Program order of `Listen`'s startup path. -/
def listenSteps : List ListenStep :=
  [ListenStep.spawnShutdownWatcher, ListenStep.spawnTicker,
   ListenStep.logReady, ListenStep.storeHealthyReady,
   ListenStep.listenAndServe]

/-- Running a sequence of requests through the `Index` handler,
accumulating the server state. -/
def runRequests (s : Server) : List Request → Server
  | [] => s
  | r :: rs => runRequests (Index s r).1 rs

/-- The first newline segment of a request's body (`messages[0]` in the
handler), or `""` when the request's body is unreadable or its content
type is not allow-listed. -/
def headSegment (r : Request) : String :=
  match r.body with
  | none => ""
  | some b => (candidateMessages r.contentType b).headD ("")

/-- The first non-empty leading segment among a sequence of requests:
the value `FirstMessage` ends up with when starting from a fresh server. -/
def firstNonEmptyHead : List Request → String
  | [] => ""
  | r :: rs => if headSegment r ≠ "" then headSegment r else firstNonEmptyHead rs

/-- Number of candidate records a request contributes (0 when the body is
unreadable or the content type is not allow-listed). -/
def candidateCount (r : Request) : Nat :=
  match r.body with
  | none => 0
  | some b => (candidateMessages r.contentType b).length

/-- Raw byte length of a request's body (0 when unreadable). -/
def requestBytes (r : Request) : Nat :=
  match r.body with
  | none => 0
  | some b => b.utf8ByteSize

theorem wrap64_eq (x : Int) (h1 : int64Min ≤ x) (h2 : x ≤ int64Max) :
    wrap64 x = x := by
  unfold wrap64
  unfold int64Min at h1
  unfold int64Max at h2
  have h0 : (0 : Int) ≤ x + 2 ^ 63 := by linarith
  have hp : (2 : Int) ^ 63 + 2 ^ 63 = 2 ^ 64 := by norm_num
  have hlt : x + 2 ^ 63 < 2 ^ 64 := by linarith
  rw [Int.emod_eq_of_lt h0 hlt]
  ring

theorem splitChars_ne_nil (sep : Char) (l : List Char) :
    splitChars sep l ≠ [] := by
  induction l with
  | nil => simp [splitChars]
  | cons c cs ih =>
    unfold splitChars
    by_cases h : c = sep
    · simp [h]
    · simp only [h, if_false]
      cases hs : splitChars sep cs with
      | nil => exact absurd hs ih
      | cons l ls => simp

theorem goSplit_length_pos (sep : Char) (s : String) :
    0 < (goSplit sep s).length := by
  unfold goSplit
  rw [List.length_map]
  exact List.length_pos.mpr (splitChars_ne_nil sep s.data)

theorem candidateMessages_allowed (ct body : String) (h : ct ∈ allowList) :
    candidateMessages ct body = goSplit '\n' body := by
  simp only [allowList, List.mem_cons, List.mem_singleton, List.not_mem_nil, or_false] at h
  rcases h with rfl | rfl | rfl | rfl <;> simp [candidateMessages]

theorem candidateMessages_not_allowed (ct body : String) (h : ct ∉ allowList) :
    candidateMessages ct body = [] := by
  simp only [allowList, List.mem_cons, List.mem_singleton, List.not_mem_nil, or_false,
    not_or] at h
  obtain ⟨h1, h2, h3, h4⟩ := h
  simp [candidateMessages, h1, h2, h3, h4]

theorem Index_none (s : Server) (ct : String) :
    Index s ⟨ct, none⟩ = ({ s with RequestCount := wrap64 (s.RequestCount + 1) }, 400) := by
  simp [Index]

theorem Index_requestCount (s : Server) (r : Request) :
    (Index s r).1.RequestCount = wrap64 (s.RequestCount + 1) := by
  obtain ⟨ct, body⟩ := r
  cases body with
  | none => simp [Index]
  | some b =>
    simp only [Index]
    split
    · split <;> split <;> rfl
    · rfl

theorem Index_some_pos (s : Server) (ct body : String)
    (h : candidateMessages ct body ≠ []) :
    Index s ⟨ct, some body⟩ =
      ({ address := s.address
         ByteTotal := wrap64 (s.ByteTotal + (body.utf8ByteSize : Int))
         FirstMessage :=
           if s.FirstMessage = "" ∧ (candidateMessages ct body).headD ("") ≠ "" then
             (candidateMessages ct body).headD ("")
           else s.FirstMessage
         LastMessage :=
           if (candidateMessages ct body).getLastD ("") ≠ "" then
             (candidateMessages ct body).getLastD ("")
           else s.LastMessage
         MessageCount := wrap64 (s.MessageCount + ((candidateMessages ct body).length : Int))
         RequestCount := wrap64 (s.RequestCount + 1) }, 204) := by
  simp only [Index]
  rw [if_pos (List.length_pos.mpr h)]
  split_ifs <;> simp_all

theorem Index_some_nil (s : Server) (ct body : String)
    (h : candidateMessages ct body = []) :
    Index s ⟨ct, some body⟩ = ({ s with RequestCount := wrap64 (s.RequestCount + 1) }, 204) := by
  simp [Index, h]

theorem Index_firstMessage_step (s : Server) (r : Request) :
    (Index s r).1.FirstMessage =
      if s.FirstMessage = "" ∧ headSegment r ≠ "" then headSegment r
      else s.FirstMessage := by
  obtain ⟨ct, body⟩ := r
  cases body with
  | none => simp [Index_none, headSegment]
  | some b =>
    by_cases hnil : candidateMessages ct b = []
    · rw [Index_some_nil s ct b hnil]
      simp [headSegment, hnil]
    · rw [Index_some_pos s ct b hnil]
      simp [headSegment]

theorem runRequests_firstMessage (rs : List Request) (s : Server) :
    (runRequests s rs).FirstMessage =
      if s.FirstMessage = "" then firstNonEmptyHead rs else s.FirstMessage := by
  induction rs generalizing s with
  | nil =>
    by_cases h : s.FirstMessage = "" <;> simp [runRequests, firstNonEmptyHead, h]
  | cons r rs ih =>
    rw [runRequests, ih, Index_firstMessage_step]
    by_cases h1 : s.FirstMessage = ""
    · by_cases h2 : headSegment r = "" <;> simp [firstNonEmptyHead, h1, h2]
    · simp [firstNonEmptyHead, h1]

/-- C1: for every request whose `Content-Type` is in the allow-list, the
`Index` handler increments `MessageCount` by exactly the number of
segments obtained by splitting the body on newlines, and `ByteTotal` by
exactly the raw byte length of the body, whether or not any segments are
empty (the `int64` additions are assumed not to overflow). -/
theorem index_allowed_counts (s : Server) (ct body : String) (hct : ct ∈ allowList)
    (h1 : int64Min ≤ s.MessageCount + ((goSplit '\n' body).length : Int))
    (h2 : s.MessageCount + ((goSplit '\n' body).length : Int) ≤ int64Max)
    (h3 : int64Min ≤ s.ByteTotal + (body.utf8ByteSize : Int))
    (h4 : s.ByteTotal + (body.utf8ByteSize : Int) ≤ int64Max) :
    (Index s ⟨ct, some body⟩).1.MessageCount
        = s.MessageCount + ((goSplit '\n' body).length : Int)
      ∧ (Index s ⟨ct, some body⟩).1.ByteTotal
        = s.ByteTotal + (body.utf8ByteSize : Int) := by
  have hm := candidateMessages_allowed ct body hct
  have hne : candidateMessages ct body ≠ [] := by
    rw [hm]
    exact List.ne_nil_of_length_pos (goSplit_length_pos '\n' body)
  rw [Index_some_pos s ct body hne, hm]
  exact ⟨wrap64_eq _ h1 h2, wrap64_eq _ h3 h4⟩

/-- C1 witness: POST `"a\nb\nc"` as `text/plain` on a fresh server yields
`MessageCount = 3` and `ByteTotal = 5`. -/
theorem index_allowed_counts_scenario :
    (Index (NewServer ("127.0.0.1:8080")) ⟨"text/plain", some ("a\nb\nc")⟩).1.MessageCount = 3
      ∧ (Index (NewServer ("127.0.0.1:8080")) ⟨"text/plain", some ("a\nb\nc")⟩).1.ByteTotal = 5 := by
  have h := index_allowed_counts (NewServer ("127.0.0.1:8080")) ("text/plain") ("a\nb\nc")
    (by decide) (by decide) (by decide) (by decide) (by decide)
  exact ⟨h.1.trans (by decide), h.2.trans (by decide)⟩

/-- C2 counterexample: a single POST of `"\nfirst"` as `text/plain` leaves
`FirstMessage` equal to `""`, not `"first"`: the handler only considers
`messages[0]`, which is empty here, so nothing is recorded. -/
theorem firstMessage_leading_empty_cex :
    (Index (NewServer ("addr")) ⟨"text/plain", some ("\nfirst")⟩).1.FirstMessage = ""
      ∧ (Index (NewServer ("addr")) ⟨"text/plain", some ("\nfirst")⟩).1.FirstMessage ≠ "first" := by
  decide

/-- C2 (amended): across any sequence of requests on a fresh server,
`FirstMessage` equals the first segment (`messages[0]`) of the earliest
request whose first segment is non-empty — requests whose first segment is
empty contribute nothing, even when a later segment of theirs is
non-empty — and it is never overwritten once set. -/
theorem firstMessage_first_nonempty_head (a : String) (rs : List Request) :
    (runRequests (NewServer a) rs).FirstMessage = firstNonEmptyHead rs := by
  rw [runRequests_firstMessage]
  simp [NewServer]

/-- C3 counterexample: on a body read failure, `RequestCount` is NOT
unchanged — it has already been incremented (from 0 to 1 on a fresh
server) before the read is attempted. -/
theorem read_error_requestCount_cex :
    ¬ ((Index (NewServer ("addr")) ⟨"text/plain", none⟩).1.RequestCount
        = (NewServer ("addr")).RequestCount) := by
  decide

/-- C3 (amended): when the body read fails the handler responds 400 and
`MessageCount`, `ByteTotal`, `FirstMessage` and `LastMessage` are all
unchanged; `RequestCount`, however, has already been incremented, since
the increment precedes the body read. -/
theorem read_error_behavior (s : Server) (ct : String) :
    (Index s ⟨ct, none⟩).2 = 400
      ∧ (Index s ⟨ct, none⟩).1.MessageCount = s.MessageCount
      ∧ (Index s ⟨ct, none⟩).1.ByteTotal = s.ByteTotal
      ∧ (Index s ⟨ct, none⟩).1.FirstMessage = s.FirstMessage
      ∧ (Index s ⟨ct, none⟩).1.LastMessage = s.LastMessage
      ∧ (Index s ⟨ct, none⟩).1.RequestCount = wrap64 (s.RequestCount + 1) := by
  rw [Index_none]
  exact ⟨rfl, rfl, rfl, rfl, rfl, rfl⟩

/-- C4: for every request whose `Content-Type` is not in the allow-list,
the handler leaves `MessageCount` and `ByteTotal` unchanged regardless of
body content, and still responds with HTTP 204. -/
theorem index_disallowed_counts (s : Server) (ct body : String) (h : ct ∉ allowList) :
    (Index s ⟨ct, some body⟩).1.MessageCount = s.MessageCount
      ∧ (Index s ⟨ct, some body⟩).1.ByteTotal = s.ByteTotal
      ∧ (Index s ⟨ct, some body⟩).2 = 204 := by
  rw [Index_some_nil s ct body (candidateMessages_not_allowed ct body h)]
  exact ⟨rfl, rfl, rfl⟩

/-- C4 witness: POST `"x"` as `application/xml` changes neither
`MessageCount` nor `ByteTotal` and responds 204. -/
theorem index_disallowed_counts_xml :
    (Index (NewServer ("addr")) ⟨"application/xml", some ("x")⟩).1.MessageCount
        = (NewServer ("addr")).MessageCount
      ∧ (Index (NewServer ("addr")) ⟨"application/xml", some ("x")⟩).1.ByteTotal
        = (NewServer ("addr")).ByteTotal
      ∧ (Index (NewServer ("addr")) ⟨"application/xml", some ("x")⟩).2 = 204 :=
  index_disallowed_counts (NewServer ("addr")) ("application/xml") ("x") (by decide)

/-- C5: `RequestCount` is incremented exactly once for every request that
reaches the `Index` handler, regardless of outcome — including requests
whose body read fails and requests with non-allow-listed content types
(the `int64` increment is assumed not to overflow). -/
theorem index_requestCount_increment (s : Server) (r : Request)
    (h1 : int64Min ≤ s.RequestCount + 1) (h2 : s.RequestCount + 1 ≤ int64Max) :
    (Index s r).1.RequestCount = s.RequestCount + 1 := by
  rw [Index_requestCount]
  exact wrap64_eq _ h1 h2

/-- C5 witness: even a request whose body read fails (and whose content
type is not allow-listed) increments `RequestCount` from 0 to 1. -/
theorem index_requestCount_increment_witness :
    (Index (NewServer ("addr")) ⟨"application/xml", none⟩).1.RequestCount
      = (NewServer ("addr")).RequestCount + 1 :=
  index_requestCount_increment (NewServer ("addr")) ⟨"application/xml", none⟩
    (by decide) (by decide)

/-- C6: in the shutdown goroutine the summary is written strictly before
the listener is told to stop accepting connections (`server.Shutdown`),
and the summary object's `byte_total`, `first_message`, `last_message`,
`message_count` and `request_count` fields equal the in-memory counter
values at the moment the signal was processed. -/
theorem shutdown_summary_order_and_fields (s : Server) :
    shutdownSteps.indexOf ShutdownStep.writeSummary
        < shutdownSteps.indexOf ShutdownStep.shutdownListener
      ∧ (WriteSummary s).byte_total = s.ByteTotal
      ∧ (WriteSummary s).first_message = s.FirstMessage
      ∧ (WriteSummary s).last_message = s.LastMessage
      ∧ (WriteSummary s).message_count = s.MessageCount
      ∧ (WriteSummary s).request_count = s.RequestCount :=
  ⟨by decide, rfl, rfl, rfl, rfl, rfl⟩

/-- C7 counterexample: in `Listen`'s program order the store of 1 into
`healthy` does NOT come after the `ListenAndServe` call — the flag is set
to ready before the bind is even attempted, refuting "the transition
happens only after the listener is bound and actively serving". -/
theorem healthy_after_bind_cex :
    ¬ (listenSteps.indexOf ListenStep.listenAndServe
        < listenSteps.indexOf ListenStep.storeHealthyReady) := by
  decide

/-- C7 (amended): the `healthy` flag starts at 0 (not-ready) and is stored
to exactly once, with the value 1 (ready); that store is the statement
immediately preceding the `ListenAndServe` call, i.e. it happens just
BEFORE the listener is bound, not after. -/
theorem healthy_store_before_listen :
    healthyInit = 0
      ∧ listenSteps.count ListenStep.storeHealthyReady = 1
      ∧ healthyStores = [1]
      ∧ listenSteps.indexOf ListenStep.storeHealthyReady + 1
        = listenSteps.indexOf ListenStep.listenAndServe := by
  decide

/-- C8: the health endpoint returns HTTP 204 when the `healthy` flag is 1
(ready) and HTTP 503 for any other value, leaves the server state
untouched, and no store in the program ever writes anything but "ready"
into the flag — it never reverts to not-ready. -/
theorem health_endpoint_behavior (s : Server) (v : Int) (hv : v ≠ 1) :
    (Health s 1).2 = 204 ∧ (Health s 1).1 = s
      ∧ (Health s v).2 = 503 ∧ (Health s v).1 = s
      ∧ ∀ w ∈ healthyStores, w = 1 := by
  refine ⟨by simp [Health], by simp [Health], by simp [Health, hv], by simp [Health, hv], ?_⟩
  intro w hw
  simpa [healthyStores] using hw

/-- C8 witness: at the initial flag value 0 the endpoint answers 503, at 1
it answers 204, and the state is unchanged in both cases. -/
theorem health_endpoint_behavior_witness :
    (Health (NewServer ("addr")) 1).2 = 204
      ∧ (Health (NewServer ("addr")) 1).1 = NewServer ("addr")
      ∧ (Health (NewServer ("addr")) healthyInit).2 = 503
      ∧ (Health (NewServer ("addr")) healthyInit).1 = NewServer ("addr")
      ∧ ∀ w ∈ healthyStores, w = 1 :=
  health_endpoint_behavior (NewServer ("addr")) healthyInit (by decide)

/-- C9: content-type matching is exact, case-sensitive string equality
against the four allow-listed values: any other value — including ones
differing only in case or carrying parameters — yields zero candidate
records and contributes nothing to `MessageCount` or `ByteTotal`. -/
theorem contentType_exact_match (s : Server) (ct body : String) (h : ct ∉ allowList) :
    candidateMessages ct body = []
      ∧ (Index s ⟨ct, some body⟩).1.MessageCount = s.MessageCount
      ∧ (Index s ⟨ct, some body⟩).1.ByteTotal = s.ByteTotal := by
  have hm := candidateMessages_not_allowed ct body h
  rw [Index_some_nil s ct body hm]
  exact ⟨hm, rfl, rfl⟩

/-- C9 witness: `"application/json; charset=utf-8"` (parameters) and
`"Text/Plain"` (case) both yield zero candidate records and leave the
counters unchanged. -/
theorem contentType_exact_match_witness :
    (candidateMessages ("application/json; charset=utf-8") ("a\nb") = []
      ∧ (Index (NewServer ("addr"))
          ⟨"application/json; charset=utf-8", some ("a\nb")⟩).1.MessageCount
        = (NewServer ("addr")).MessageCount
      ∧ (Index (NewServer ("addr"))
          ⟨"application/json; charset=utf-8", some ("a\nb")⟩).1.ByteTotal
        = (NewServer ("addr")).ByteTotal)
    ∧ (candidateMessages ("Text/Plain") ("a\nb") = []
      ∧ (Index (NewServer ("addr")) ⟨"Text/Plain", some ("a\nb")⟩).1.MessageCount
        = (NewServer ("addr")).MessageCount
      ∧ (Index (NewServer ("addr")) ⟨"Text/Plain", some ("a\nb")⟩).1.ByteTotal
        = (NewServer ("addr")).ByteTotal) :=
  ⟨contentType_exact_match (NewServer ("addr")) ("application/json; charset=utf-8") ("a\nb")
      (by decide),
   contentType_exact_match (NewServer ("addr")) ("Text/Plain") ("a\nb") (by decide)⟩

/-- C10: `RequestCount`, `MessageCount` and `ByteTotal` start at zero in
`NewServer`, no `Index` step decreases any of them (absent `int64`
overflow), and the health handler never changes the state;
`WriteSummary` is a pure read of the state and touches no counter. -/
theorem counters_zero_init_monotone (a : String) (s : Server) (r : Request) (v : Int)
    (hrc1 : int64Min ≤ s.RequestCount) (hrc2 : s.RequestCount + 1 ≤ int64Max)
    (hmc1 : int64Min ≤ s.MessageCount)
    (hmc2 : s.MessageCount + (candidateCount r : Int) ≤ int64Max)
    (hbt1 : int64Min ≤ s.ByteTotal)
    (hbt2 : s.ByteTotal + (requestBytes r : Int) ≤ int64Max) :
    ((NewServer a).RequestCount = 0 ∧ (NewServer a).MessageCount = 0
        ∧ (NewServer a).ByteTotal = 0)
      ∧ (s.RequestCount ≤ (Index s r).1.RequestCount
        ∧ s.MessageCount ≤ (Index s r).1.MessageCount
        ∧ s.ByteTotal ≤ (Index s r).1.ByteTotal)
      ∧ (Health s v).1 = s := by
  refine ⟨⟨rfl, rfl, rfl⟩, ⟨?_, ?_, ?_⟩, ?_⟩
  · rw [Index_requestCount, wrap64_eq _ (by linarith) hrc2]
    linarith
  · obtain ⟨ct, body⟩ := r
    cases body with
    | none => rw [Index_none]
    | some b =>
      by_cases hnil : candidateMessages ct b = []
      · rw [Index_some_nil s ct b hnil]
      · rw [Index_some_pos s ct b hnil]
        have hcc : (candidateCount ⟨ct, some b⟩ : Int)
            = ((candidateMessages ct b).length : Int) := by
          simp [candidateCount]
        rw [hcc] at hmc2
        have hnn : (0 : Int) ≤ ((candidateMessages ct b).length : Int) := by positivity
        show s.MessageCount ≤ wrap64 (s.MessageCount + ((candidateMessages ct b).length : Int))
        rw [wrap64_eq _ (by linarith) hmc2]
        linarith
  · obtain ⟨ct, body⟩ := r
    cases body with
    | none => rw [Index_none]
    | some b =>
      by_cases hnil : candidateMessages ct b = []
      · rw [Index_some_nil s ct b hnil]
      · rw [Index_some_pos s ct b hnil]
        have hbb : (requestBytes ⟨ct, some b⟩ : Int) = (b.utf8ByteSize : Int) := by
          simp [requestBytes]
        rw [hbb] at hbt2
        have hnn : (0 : Int) ≤ (b.utf8ByteSize : Int) := by positivity
        show s.ByteTotal ≤ wrap64 (s.ByteTotal + (b.utf8ByteSize : Int))
        rw [wrap64_eq _ (by linarith) hbt2]
        linarith
  · unfold Health
    split <;> rfl

/-- C10 witness: on a fresh server, one `text/plain` request with body
`"hi"` does not decrease any counter, and the health handler at flag 0
leaves the state unchanged. -/
theorem counters_zero_init_monotone_witness :
    (((NewServer ("addr")).RequestCount = 0 ∧ (NewServer ("addr")).MessageCount = 0
        ∧ (NewServer ("addr")).ByteTotal = 0)
      ∧ ((NewServer ("addr")).RequestCount
          ≤ (Index (NewServer ("addr")) ⟨"text/plain", some ("hi")⟩).1.RequestCount
        ∧ (NewServer ("addr")).MessageCount
          ≤ (Index (NewServer ("addr")) ⟨"text/plain", some ("hi")⟩).1.MessageCount
        ∧ (NewServer ("addr")).ByteTotal
          ≤ (Index (NewServer ("addr")) ⟨"text/plain", some ("hi")⟩).1.ByteTotal)
      ∧ (Health (NewServer ("addr")) healthyInit).1 = NewServer ("addr")) :=
  counters_zero_init_monotone ("addr") (NewServer ("addr")) ⟨"text/plain", some ("hi")⟩
    healthyInit (by decide) (by decide) (by decide) (by decide) (by decide) (by decide)

end HttpTestServer
